import Mathlib

/-!
Shallow embedding of the portfolio single-page application (src/src/App.jsx)
and verification of its specification claims.

The app consists of a theme hook (useTheme), a projects gallery with
tag filtering (Projects), a posts list (Blog), and a contact form with a
tri-state submission status (Contact).  Each stateful component is embedded
as pure state-transition functions; network calls are modelled by an
explicit outcome datatype (thrown error / HTTP response with ok-flag and
optionally parsed JSON body).
-/

namespace Portfolio

/-! ### Backend base address

`const BACKEND = import.meta.env.VITE_BACKEND_URL || 'http://localhost:8000'`
A missing or empty environment variable falls back to the local default
(JS `||` on strings: the empty string is falsy). -/

def backendUrl (env : Option String) : String :=
  match env with
  | some s => if s.isEmpty then "http://localhost:8000" else s
  | none => "http://localhost:8000"

/-! ### Contact form (the `Contact` component)

State: `status ∈ {idle, loading, success, error}` and the three form
fields.  Guard: `form.name && /.+@.+/.test(form.email) && form.message.length > 5`. -/

inductive Status where
  | idle
  | loading
  | success
  | error
deriving DecidableEq

structure ContactForm where
  name : String
  email : String
  message : String
deriving DecidableEq

/-- A character matched by the JavaScript regex metacharacter `.`
(any character except the four line terminators). -/
def jsDot (c : Char) : Bool :=
  !(c == Char.ofNat 10) && !(c == Char.ofNat 13) &&
  !(c == Char.ofNat 0x2028) && !(c == Char.ofNat 0x2029)

/-- `/.+@.+/.test(s)`: the regex is unanchored, so the test succeeds
exactly when some position of the string holds a dot-matched character,
then an at-sign, then a dot-matched character (a minimal-length match of
the pattern; longer matches exist only where this one does). -/
def regexDotAtDot : List Char → Bool
  | a :: b :: c :: rest =>
    (jsDot a && (b == '@') && jsDot c) || regexDotAtDot (b :: c :: rest)
  | _ => false

/-- `const valid = form.name && /.+@.+/.test(form.email) && form.message.length > 5`
(JS truthiness of a string: non-empty). -/
def contactValid (f : ContactForm) : Bool :=
  !f.name.isEmpty && regexDotAtDot f.email.data && decide (f.message.length > 5)

structure ContactRequest where
  url : String
  method : String
  contentType : String
  body : ContactForm
deriving DecidableEq

/-- The POST issued by `submit`:
`fetch(BACKEND + '/api/contact', { method: 'POST', headers: { 'Content-Type': 'application/json' }, body: JSON.stringify(form) })`. -/
def mkContactRequest (base : String) (f : ContactForm) : ContactRequest :=
  { url := base ++ "/api/contact", method := "POST",
    contentType := "application/json", body := f }

/-- Outcome of the contact fetch: the promise rejects, or resolves with a
response whose `ok` flag is given (the body is never read). -/
inductive ContactOutcome where
  | thrown
  | response (ok : Bool)
deriving DecidableEq

/-- Result of invoking the `submit` handler: the requests issued and the
sequence of statuses passed to `setStatus`, in order. -/
structure SubmitResult where
  requests : List ContactRequest
  trace : List Status
deriving DecidableEq

/-- The `submit` handler (App.jsx lines 269-280): if the guard fails,
return immediately; otherwise set status to `loading`, issue the POST and
set `success` when `res.ok`, `error` on a non-ok response or a thrown
error. -/
def contactSubmit (base : String) (f : ContactForm) (o : ContactOutcome) : SubmitResult :=
  if contactValid f then
    { requests := [mkContactRequest base f],
      trace := [Status.loading,
        match o with
        | .thrown => Status.error
        | .response ok => if ok then Status.success else Status.error] }
  else
    { requests := [], trace := [] }

/-- `disabled={!valid || status==='loading'}` on the submit button. -/
def submitDisabled (f : ContactForm) (st : Status) : Bool :=
  !contactValid f || decide (st = Status.loading)

/-- Component-level state of `Contact`, with a log of requests issued. -/
structure ContactState where
  status : Status
  form : ContactForm
  sent : List ContactRequest
deriving DecidableEq

def initialContactState : ContactState :=
  { status := Status.idle, form := { name := "", email := "", message := "" }, sent := [] }

/-- User-visible events on the contact form: editing one of the three
controlled inputs, or submitting the form (with the fetch outcome the
submission will observe). -/
inductive ContactEvent where
  | editName (s : String)
  | editEmail (s : String)
  | editMessage (s : String)
  | submitForm (o : ContactOutcome)

/-- One step of the `Contact` component.  Edits update the corresponding
field (status untouched).  A submission is only deliverable while the
submit control is enabled; it then runs the `submit` handler, appending
its requests and ending at the last status it set (unchanged when the
guard failed and no status was set). -/
def contactStep (base : String) (st : ContactState) (e : ContactEvent) : ContactState :=
  match e with
  | .editName s => { st with form := { st.form with name := s } }
  | .editEmail s => { st with form := { st.form with email := s } }
  | .editMessage s => { st with form := { st.form with message := s } }
  | .submitForm o =>
    if submitDisabled st.form st.status then st
    else
      let r := contactSubmit base st.form o
      { st with sent := st.sent ++ r.requests,
                status := r.trace.getLast?.getD st.status }

def runContact (base : String) (st : ContactState) (es : List ContactEvent) : ContactState :=
  es.foldl (contactStep base) st

/-! ### Projects gallery (the `Projects` component)

Fields mirror the properties the component reads off each record
(`p.slug`, `p.title`, `p.description`, `p.cover_url`, `p.tags`, `p.stack`,
`p.featured`, `p.impact`, `p.demo_url`, `p.github_url`); optional JSON
properties are `Option`s. -/

structure Project where
  slug : String
  title : String
  description : String
  cover_url : Option String := none
  tags : Option (List String) := none
  stack : Option (List String) := none
  featured : Bool := false
  impact : Option String := none
  demo_url : Option String := none
  github_url : Option String := none
deriving DecidableEq

/-- Outcome of fetch-then-parse on a collection endpoint: the fetch
promise rejects (`thrown`), or a response arrives with the given `ok`
flag and `res.json()` either rejects (`none`) or resolves to a list. -/
inductive FetchOutcome (α : Type) where
  | thrown
  | response (ok : Bool) (body : Option α)
deriving DecidableEq

structure ProjectsState where
  projects : List Project
  active : String
  loading : Bool
  error : String
deriving DecidableEq

def initialProjectsState : ProjectsState :=
  { projects := [], active := "All", loading := true, error := "" }

/-- The `load` effect (App.jsx lines 171-182):
`try { const res = await fetch(...); const data = await res.json(); setProjects(data) }
 catch (e) { setError('Could not load projects') } finally { setLoading(false) }`.
Note that `res.ok` is never inspected: any parsed body is stored as data. -/
def loadProjects (r : FetchOutcome (List Project)) (s : ProjectsState) : ProjectsState :=
  match r with
  | .thrown => { s with error := "Could not load projects", loading := false }
  | .response _ none => { s with error := "Could not load projects", loading := false }
  | .response _ (some data) => { s with projects := data, loading := false }

/-- `projects.flatMap(p => p.tags || [])`. -/
def projectAllTags (ps : List Project) : List String :=
  ps.flatMap fun p => p.tags.getD []

/-- Insertion into a JavaScript `Set` viewed as its insertion-ordered
element list: a new element goes to the end, a present one is ignored. -/
def jsSetInsert (acc : List String) (x : String) : List String :=
  if x ∈ acc then acc else acc ++ [x]

/-- `Array.from(new Set(l))`: deduplication keeping insertion order. -/
def jsSetFrom (l : List String) : List String :=
  l.foldl jsSetInsert []

/-- `const tags = Array.from(new Set(projects.flatMap(p => p.tags || [])))`. -/
def deriveTags (ps : List Project) : List String :=
  jsSetFrom (projectAllTags ps)

/-- `const filtered = active === 'All' ? projects : projects.filter(p => p.tags?.includes(active))`
(optional chaining: a record without a tag list yields `undefined`, which
is falsy, so the record is dropped). -/
def filterByTag (ps : List Project) (active : String) : List Project :=
  if active = "All" then ps
  else ps.filter fun p =>
    match p.tags with
    | none => false
    | some ts => ts.contains active

/-- What the `Projects` section body renders (lines 197-205): the loading
placeholder, the error paragraph (`error ? ... :` — JS truthiness of a
string: non-empty), or the grid of filtered cards. -/
inductive ProjectsView where
  | loadingView
  | errorView (msg : String)
  | gridView (ps : List Project)
deriving DecidableEq

def renderProjects (s : ProjectsState) : ProjectsView :=
  if s.loading then ProjectsView.loadingView
  else if s.error.isEmpty then ProjectsView.gridView (filterByTag s.projects s.active)
  else ProjectsView.errorView s.error

/-! ### Posts list (the `Blog` component) -/

structure Post where
  slug : String
  title : String
  excerpt : Option String := none
  content : String := ""
deriving DecidableEq

/-- `fetch(BACKEND + '/api/posts').then(r => r.json()).then(setPosts).catch(() => {})`:
a rejection anywhere in the chain is swallowed, leaving the state as it
was; a parsed body is stored unconditionally (`res.ok` is never read). -/
def loadPosts (r : FetchOutcome (List Post)) (posts : List Post) : List Post :=
  match r with
  | .thrown => posts
  | .response _ none => posts
  | .response _ (some data) => data

inductive BlogView where
  | nothing
  | sectionView (posts : List Post)
deriving DecidableEq

/-- `if (!posts.length) return null` and otherwise the section markup. -/
def renderBlog (posts : List Post) : BlogView :=
  if posts.length = 0 then BlogView.nothing else BlogView.sectionView posts

/-! ### Theme (the `useTheme` hook and the `App` mount effect) -/

/-- The document root's `dark` class together with the `theme` key of
`localStorage` (`none` when the key is absent). -/
structure ThemeWorld where
  darkClass : Bool
  stored : Option String
deriving DecidableEq

def ambientTheme (ambientDark : Bool) : String :=
  if ambientDark then "dark" else "light"

/-- The `useState` initializer of `useTheme` (lines 21-25):
`const stored = localStorage.getItem('theme'); if (stored) return stored;`
then the ambient `prefers-color-scheme` signal.  JS truthiness: a stored
empty string is falsy and also falls through to the ambient signal. -/
def getInitialTheme (stored : Option String) (ambientDark : Bool) : String :=
  match stored with
  | some s => if s.isEmpty then ambientTheme ambientDark else s
  | none => ambientTheme ambientDark

/-- The `useTheme` effect (lines 26-31): add the `dark` class when the
theme is `'dark'`, remove it otherwise, and persist the theme string. -/
def themeEffect (theme : String) (_w : ThemeWorld) : ThemeWorld :=
  { darkClass := decide (theme = "dark"), stored := some theme }

/-- `setTheme(theme === 'dark' ? 'light' : 'dark')` (the navbar toggle,
line 71). -/
def toggleTheme (t : String) : String :=
  if t = "dark" then "light" else "dark"

/-- The mount sequence of `App` as far as the document root is concerned:
`useTheme` initializes the theme and its effect applies it, then the
`App` effect (lines 353-355) unconditionally runs
`document.documentElement.classList.add('dark')`.  Effects of the same
component run in declaration order, so the unconditional add comes last. -/
def appMount (ambientDark : Bool) (w : ThemeWorld) : ThemeWorld :=
  let t := getInitialTheme w.stored ambientDark
  let w1 := themeEffect t w
  { w1 with darkClass := true }

/-! ### Specification-side definitions

These follow the specification's words, to be compared against the
embedded code above. -/

/-- Modelled from the spec's words (§4.2): the email string "contains an
@ sign with non-empty segments on both sides". -/
def specEmailShape (s : List Char) : Prop :=
  ∃ l r, s = l ++ '@' :: r ∧ l ≠ [] ∧ r ≠ []

/-- Modelled from the spec's words (§8): a project's "tag collection
contains that tag" (a membership test on the optional tag list). -/
def specTagMatch (t : String) (p : Project) : Prop :=
  ∃ ts, p.tags = some ts ∧ t ∈ ts

instance (t : String) (p : Project) : Decidable (specTagMatch t p) :=
  match h : p.tags with
  | none => isFalse (by simp [specTagMatch, h])
  | some ts => decidable_of_iff (t ∈ ts) (by simp [specTagMatch, h])

/-- Modelled from the spec's words (§4.1/§8): the derived tag list keeps
each tag exactly once, in order of first appearance. -/
def firstAppearanceDedup : List String → List String
  | [] => []
  | x :: xs => x :: firstAppearanceDedup (xs.filter fun y => decide (y ≠ x))
termination_by l => l.length
decreasing_by
  simp only [List.length_cons]
  exact Nat.lt_succ_of_le (List.length_filter_le _ _)

/-! ### Helper lemmas -/

/-- A successful unanchored `/.+@.+/` test exhibits an at-sign with a
non-empty segment on each side. -/
theorem regexDotAtDot_sound : ∀ (s : List Char), regexDotAtDot s = true → specEmailShape s := by
  intro s
  induction s with
  | nil => intro h; simp [regexDotAtDot] at h
  | cons a t ih =>
    cases t with
    | nil => intro h; simp [regexDotAtDot] at h
    | cons b t2 =>
      cases t2 with
      | nil => intro h; simp [regexDotAtDot] at h
      | cons c rest =>
        intro h
        rw [regexDotAtDot, Bool.or_eq_true] at h
        rcases h with h | h
        · have hb : b = '@' := by
            have := (Bool.and_eq_true _ _).mp ((Bool.and_eq_true _ _).mp h).1
            exact eq_of_beq this.2
          subst hb
          exact ⟨[a], c :: rest, rfl, by simp, by simp⟩
        · obtain ⟨l, r, heq, hl, hr⟩ := ih h
          exact ⟨a :: l, r, by rw [heq]; rfl, by simp, hr⟩

/-- Each of the three guard-failure conditions falsifies the code's
`valid` expression. -/
theorem contactValid_eq_false_of_fail (f : ContactForm)
    (h : f.name = "" ∨ ¬ specEmailShape f.email.data ∨ f.message.length ≤ 5) :
    contactValid f = false := by
  rcases h with h | h | h
  · simp [contactValid, h, String.isEmpty_iff]
  · have hx : regexDotAtDot f.email.data = false := by
      cases hr : regexDotAtDot f.email.data
      · rfl
      · exact absurd (regexDotAtDot_sound _ hr) h
    simp [contactValid, hx]
  · have hx : ¬ (f.message.length > 5) := by omega
    simp [contactValid, hx]

theorem firstAppearanceDedup_nil : firstAppearanceDedup [] = [] := by
  rw [firstAppearanceDedup]

theorem firstAppearanceDedup_cons (x : String) (xs : List String) :
    firstAppearanceDedup (x :: xs)
      = x :: firstAppearanceDedup (xs.filter fun y => decide (y ≠ x)) := by
  rw [firstAppearanceDedup]

/-- Folding JS-Set insertion over a list appends, after the accumulator,
the first-appearance deduplication of the not-yet-seen elements. -/
theorem foldl_jsSetInsert (l : List String) :
    ∀ acc, l.foldl jsSetInsert acc
      = acc ++ firstAppearanceDedup (l.filter fun x => decide (x ∉ acc)) := by
  induction l with
  | nil => intro acc; simp [firstAppearanceDedup_nil]
  | cons x xs ih =>
    intro acc
    rw [List.foldl_cons]
    by_cases hx : x ∈ acc
    · have h1 : jsSetInsert acc x = acc := by simp [jsSetInsert, hx]
      have h2 : (x :: xs).filter (fun y => decide (y ∉ acc))
          = xs.filter (fun y => decide (y ∉ acc)) := by
        simp [List.filter_cons, hx]
      rw [h1, h2, ih acc]
    · have h1 : jsSetInsert acc x = acc ++ [x] := by simp [jsSetInsert, hx]
      have h2 : (x :: xs).filter (fun y => decide (y ∉ acc))
          = x :: xs.filter (fun y => decide (y ∉ acc)) := by
        simp [List.filter_cons, hx]
      rw [h1, h2, ih (acc ++ [x]), firstAppearanceDedup_cons, List.append_assoc,
        List.singleton_append]
      have h3 : (List.filter (fun y => decide (y ∉ acc ++ [x])) xs)
          = List.filter (fun a => decide (a ≠ x) && decide (a ∉ acc)) xs := by
        apply List.filter_congr
        intro y _
        by_cases hy : y = x
        · subst hy; simp
        · by_cases hya : y ∈ acc <;> simp [hy, hya]
      rw [List.filter_filter, h3]

theorem jsSetFrom_eq_firstAppearanceDedup (l : List String) :
    jsSetFrom l = firstAppearanceDedup l := by
  unfold jsSetFrom
  rw [foldl_jsSetInsert l []]
  have : (l.filter fun x => decide (x ∉ ([] : List String))) = l :=
    List.filter_eq_self.mpr (by intro a _; simp)
  rw [this, List.nil_append]

theorem mem_firstAppearanceDedup : ∀ (l : List String) (t : String),
    t ∈ firstAppearanceDedup l ↔ t ∈ l := by
  have key : ∀ (n : Nat) (l : List String), l.length ≤ n →
      ∀ t, (t ∈ firstAppearanceDedup l ↔ t ∈ l) := by
    intro n
    induction n with
    | zero =>
      intro l hl t
      have hnil : l = [] := List.length_eq_zero.mp (Nat.le_zero.mp hl)
      subst hnil
      simp [firstAppearanceDedup_nil]
    | succ n ih =>
      intro l hl t
      cases l with
      | nil => simp [firstAppearanceDedup_nil]
      | cons x xs =>
        have hlen : (xs.filter fun y => decide (y ≠ x)).length ≤ n := by
          have := List.length_filter_le (fun y => decide (y ≠ x)) xs
          simp only [List.length_cons] at hl
          omega
        rw [firstAppearanceDedup_cons, List.mem_cons, ih _ hlen t]
        by_cases ht : t = x <;> simp [ht]
  intro l t
  exact key l.length l (Nat.le_refl _) t

theorem nodup_firstAppearanceDedup : ∀ (l : List String),
    (firstAppearanceDedup l).Nodup := by
  have key : ∀ (n : Nat) (l : List String), l.length ≤ n →
      (firstAppearanceDedup l).Nodup := by
    intro n
    induction n with
    | zero =>
      intro l hl
      have hnil : l = [] := List.length_eq_zero.mp (Nat.le_zero.mp hl)
      subst hnil
      simp [firstAppearanceDedup_nil]
    | succ n ih =>
      intro l hl
      cases l with
      | nil => simp [firstAppearanceDedup_nil]
      | cons x xs =>
        have hlen : (xs.filter fun y => decide (y ≠ x)).length ≤ n := by
          have := List.length_filter_le (fun y => decide (y ≠ x)) xs
          simp only [List.length_cons] at hl
          omega
        rw [firstAppearanceDedup_cons]
        refine List.nodup_cons.mpr ⟨?_, ih _ hlen⟩
        rw [mem_firstAppearanceDedup]
        simp
  intro l
  exact key l.length l (Nat.le_refl _)

/-! ### Claim theorems -/

/-- C1: for every form state passing the guard, invoking submit sends
exactly one POST request to the contact endpoint with the {name, email,
message} payload and moves the status from idle to loading; a response
with a success HTTP status ends in success, and a non-success response or
a thrown request ends in error. -/
theorem contact_submit_guard_pass (base : String) (f : ContactForm) (o : ContactOutcome)
    (h : contactValid f = true) :
    (contactSubmit base f o).requests = [mkContactRequest base f] ∧
    (contactSubmit base f o).requests.length = 1 ∧
    (contactSubmit base f o).trace.head? = some Status.loading ∧
    (o = ContactOutcome.response true →
      (contactSubmit base f o).trace = [Status.loading, Status.success]) ∧
    (o = ContactOutcome.response false →
      (contactSubmit base f o).trace = [Status.loading, Status.error]) ∧
    (o = ContactOutcome.thrown →
      (contactSubmit base f o).trace = [Status.loading, Status.error]) ∧
    (contactStep base { status := Status.idle, form := f, sent := [] }
        (ContactEvent.submitForm o)).sent = [mkContactRequest base f] := by
  refine ⟨?_, ?_, ?_, ?_, ?_, ?_, ?_⟩
  · simp [contactSubmit, h]
  · simp [contactSubmit, h]
  · simp [contactSubmit, h]
  · rintro rfl; simp [contactSubmit, h]
  · rintro rfl; simp [contactSubmit, h]
  · rintro rfl; simp [contactSubmit, h]
  · simp [contactStep, submitDisabled, contactSubmit, h]

/-- C1 witness: the spec's example form (name "Ann", email "ann@x.io",
message "Hello there") passes the guard, and the theorem applies to it. -/
theorem contact_submit_guard_pass_witness :
    contactValid { name := "Ann", email := "ann@x.io", message := "Hello there" } = true ∧
    ((contactSubmit "http://localhost:8000"
        { name := "Ann", email := "ann@x.io", message := "Hello there" }
        (ContactOutcome.response true)).requests
      = [mkContactRequest "http://localhost:8000"
          { name := "Ann", email := "ann@x.io", message := "Hello there" }] ∧
    (contactSubmit "http://localhost:8000"
        { name := "Ann", email := "ann@x.io", message := "Hello there" }
        (ContactOutcome.response true)).requests.length = 1 ∧
    (contactSubmit "http://localhost:8000"
        { name := "Ann", email := "ann@x.io", message := "Hello there" }
        (ContactOutcome.response true)).trace.head? = some Status.loading ∧
    (ContactOutcome.response true = ContactOutcome.response true →
      (contactSubmit "http://localhost:8000"
          { name := "Ann", email := "ann@x.io", message := "Hello there" }
          (ContactOutcome.response true)).trace = [Status.loading, Status.success]) ∧
    (ContactOutcome.response true = ContactOutcome.response false →
      (contactSubmit "http://localhost:8000"
          { name := "Ann", email := "ann@x.io", message := "Hello there" }
          (ContactOutcome.response true)).trace = [Status.loading, Status.error]) ∧
    (ContactOutcome.response true = ContactOutcome.thrown →
      (contactSubmit "http://localhost:8000"
          { name := "Ann", email := "ann@x.io", message := "Hello there" }
          (ContactOutcome.response true)).trace = [Status.loading, Status.error]) ∧
    (contactStep "http://localhost:8000"
        { status := Status.idle,
          form := { name := "Ann", email := "ann@x.io", message := "Hello there" },
          sent := [] }
        (ContactEvent.submitForm (ContactOutcome.response true))).sent
      = [mkContactRequest "http://localhost:8000"
          { name := "Ann", email := "ann@x.io", message := "Hello there" }]) :=
  ⟨by decide, contact_submit_guard_pass "http://localhost:8000"
    { name := "Ann", email := "ann@x.io", message := "Hello there" }
    (ContactOutcome.response true) (by decide)⟩

/-- C2: when the name is empty, or the email lacks an at-sign with a
non-empty segment on each side, or the message has length at most five,
invoking submit is a no-op: no request is issued, no status is set, and
the component state is unchanged. -/
theorem contact_submit_guard_fail (base : String) (f : ContactForm) (o : ContactOutcome)
    (st : ContactState)
    (h : f.name = "" ∨ ¬ specEmailShape f.email.data ∨ f.message.length ≤ 5) :
    (contactSubmit base f o).requests = [] ∧
    (contactSubmit base f o).trace = [] ∧
    contactStep base { st with form := f } (ContactEvent.submitForm o)
      = { st with form := f } := by
  have hv := contactValid_eq_false_of_fail f h
  refine ⟨?_, ?_, ?_⟩
  · simp [contactSubmit, hv]
  · simp [contactSubmit, hv]
  · simp [contactStep, submitDisabled, hv]

/-- C2 witness: the spec's example (name "", email "a@b", message
"hello!") fails the guard through the empty name, and the theorem
applies to it. -/
theorem contact_submit_guard_fail_witness :
    ((ContactForm.mk "" "a@b" "hello!").name = ""
      ∨ ¬ specEmailShape (ContactForm.mk "" "a@b" "hello!").email.data
      ∨ (ContactForm.mk "" "a@b" "hello!").message.length ≤ 5) ∧
    ((contactSubmit "http://localhost:8000" (ContactForm.mk "" "a@b" "hello!")
        (ContactOutcome.response true)).requests = [] ∧
    (contactSubmit "http://localhost:8000" (ContactForm.mk "" "a@b" "hello!")
        (ContactOutcome.response true)).trace = [] ∧
    contactStep "http://localhost:8000"
        { initialContactState with form := ContactForm.mk "" "a@b" "hello!" }
        (ContactEvent.submitForm (ContactOutcome.response true))
      = { initialContactState with form := ContactForm.mk "" "a@b" "hello!" }) :=
  ⟨Or.inl rfl, contact_submit_guard_fail "http://localhost:8000"
    (ContactForm.mk "" "a@b" "hello!") (ContactOutcome.response true)
    initialContactState (Or.inl rfl)⟩

/-- C10: while the submission status is loading, the submit control's
disabled condition holds for every form state, so a second contact
request cannot be initiated while one is in flight. -/
theorem submit_disabled_while_loading (base : String) (f : ContactForm)
    (o : ContactOutcome) (sent : List ContactRequest) :
    submitDisabled f Status.loading = true ∧
    contactStep base { status := Status.loading, form := f, sent := sent }
        (ContactEvent.submitForm o)
      = { status := Status.loading, form := f, sent := sent } := by
  constructor
  · simp [submitDisabled]
  · simp [contactStep, submitDisabled]

/-- C3 counterexample: a non-success HTTP response whose body still
parses as JSON (here status not ok, body the empty list) is NOT recovered
by displaying the static error string: the load handler stores the body
as data (`res.ok` is never inspected), the error field stays empty, and
the section renders the grid, not the error paragraph. -/
theorem projects_nonok_json_not_error :
    (loadProjects (FetchOutcome.response false (some [])) initialProjectsState).error = "" ∧
    renderProjects (loadProjects (FetchOutcome.response false (some [])) initialProjectsState)
      = ProjectsView.gridView [] ∧
    renderProjects (loadProjects (FetchOutcome.response false (some [])) initialProjectsState)
      ≠ ProjectsView.errorView "Could not load projects" := by
  refine ⟨rfl, rfl, by decide⟩

/-- C3 amended: failures that surface as a thrown fetch error or a JSON
parse error are recovered locally — projects display the static error
string, posts are left unchanged, and the contact submission ends in the
error status — while a non-success HTTP response whose body parses as
JSON is stored as project/post data (the ok flag is never inspected);
every handler yields a well-defined next state, so no modelled network
failure propagates out of its component. -/
theorem network_failures_degrade (s : ProjectsState) (ok : Bool) (data : List Project)
    (base : String) (f : ContactForm) (posts : List Post) :
    (loadProjects FetchOutcome.thrown s).error = "Could not load projects" ∧
    renderProjects (loadProjects FetchOutcome.thrown s)
      = ProjectsView.errorView "Could not load projects" ∧
    (loadProjects (FetchOutcome.response ok none) s).error = "Could not load projects" ∧
    renderProjects (loadProjects (FetchOutcome.response ok none) s)
      = ProjectsView.errorView "Could not load projects" ∧
    (loadProjects (FetchOutcome.response ok (some data)) s).projects = data ∧
    (loadProjects (FetchOutcome.response ok (some data)) s).error = s.error ∧
    (loadProjects FetchOutcome.thrown s).loading = false ∧
    loadPosts FetchOutcome.thrown posts = posts ∧
    loadPosts (FetchOutcome.response ok none) posts = posts ∧
    (contactSubmit base f ContactOutcome.thrown).trace
      = (if contactValid f then [Status.loading, Status.error] else []) ∧
    (contactSubmit base f (ContactOutcome.response false)).trace
      = (if contactValid f then [Status.loading, Status.error] else []) := by
  refine ⟨rfl, rfl, rfl, rfl, rfl, rfl, rfl, rfl, rfl, ?_, ?_⟩ <;>
    cases hv : contactValid f <;> simp [contactSubmit, hv]

/-- C4: the derived tag list keeps each tag occurring in any project
exactly once, in order of first appearance across the projects in fetched
order (it equals the first-appearance deduplication of the concatenated
tag lists), and the "All" filter returns the fetched collection
unchanged. -/
theorem derived_tags_and_all_filter (ps : List Project) :
    deriveTags ps = firstAppearanceDedup (projectAllTags ps) ∧
    (deriveTags ps).Nodup ∧
    (∀ t, t ∈ deriveTags ps ↔ ∃ p ∈ ps, ∃ ts, p.tags = some ts ∧ t ∈ ts) ∧
    filterByTag ps "All" = ps := by
  have he : deriveTags ps = firstAppearanceDedup (projectAllTags ps) :=
    jsSetFrom_eq_firstAppearanceDedup (projectAllTags ps)
  refine ⟨he, ?_, ?_, ?_⟩
  · rw [he]; exact nodup_firstAppearanceDedup _
  · intro t
    rw [he, mem_firstAppearanceDedup]
    simp only [projectAllTags, List.mem_flatMap]
    constructor
    · rintro ⟨p, hp, ht⟩
      cases htags : p.tags with
      | none => rw [htags] at ht; simp at ht
      | some ts =>
        rw [htags] at ht
        exact ⟨p, hp, ts, htags, by simpa using ht⟩
    · rintro ⟨p, hp, ts, hts, ht⟩
      exact ⟨p, hp, by simp [hts, ht]⟩
  · simp [filterByTag]

/-- C5: filtering by a specific (non-"All") tag yields exactly the
subsequence of projects whose tag collection contains that tag; a project
without a tag list is excluded from every specific-tag filter. -/
theorem filter_specific_tag (ps : List Project) (t : String) (h : t ≠ "All") :
    List.Sublist (filterByTag ps t) ps ∧
    (∀ p, p ∈ filterByTag ps t ↔ p ∈ ps ∧ specTagMatch t p) ∧
    (∀ p, p.tags = none → p ∉ filterByTag ps t) ∧
    (∀ p, (filterByTag ps t).count p = if specTagMatch t p then ps.count p else 0) := by
  have hf : filterByTag ps t
      = ps.filter (fun p => match p.tags with
          | none => false
          | some ts => ts.contains t) := by
    simp [filterByTag, h]
  have hpred : ∀ p : Project,
      (match p.tags with | none => false | some ts => ts.contains t)
        = decide (specTagMatch t p) := by
    intro p
    cases hp : p.tags with
    | none => simp [specTagMatch, hp]
    | some ts => simp [List.contains, specTagMatch, hp]
  refine ⟨?_, ?_, ?_, ?_⟩
  · rw [hf]; exact List.filter_sublist _
  · intro p
    rw [hf, List.mem_filter, hpred p]
    simp
  · intro p hnone hmem
    rw [hf] at hmem
    rcases List.mem_filter.mp hmem with ⟨_, hb⟩
    rw [hnone] at hb
    simp at hb
  · intro p
    rw [hf]
    by_cases hm : specTagMatch t p
    · rw [if_pos hm]
      exact List.count_filter (by rw [hpred p]; exact decide_eq_true hm)
    · rw [if_neg hm]
      refine List.count_eq_zero.mpr ?_
      intro hmem
      rcases List.mem_filter.mp hmem with ⟨_, hb⟩
      rw [hpred p] at hb
      exact hm (of_decide_eq_true hb)

/-- C5 witness: filtering a two-project collection (one tagged "AI", one
with no tag list) by the tag "AI" satisfies the theorem. -/
theorem filter_specific_tag_witness :
    ("AI" : String) ≠ "All" ∧
    (List.Sublist (filterByTag [{ slug := "p1", title := "t1", description := "d1", tags := some ["AI"] },
        { slug := "p2", title := "t2", description := "d2" }] "AI")
        [{ slug := "p1", title := "t1", description := "d1", tags := some ["AI"] },
        { slug := "p2", title := "t2", description := "d2" }]) ∧
    (∀ p, p ∈ filterByTag [{ slug := "p1", title := "t1", description := "d1", tags := some ["AI"] },
        { slug := "p2", title := "t2", description := "d2" }] "AI"
      ↔ p ∈ [{ slug := "p1", title := "t1", description := "d1", tags := some ["AI"] },
        { slug := "p2", title := "t2", description := "d2" }] ∧ specTagMatch "AI" p) ∧
    (∀ p, p.tags = none →
      p ∉ filterByTag [{ slug := "p1", title := "t1", description := "d1", tags := some ["AI"] },
        { slug := "p2", title := "t2", description := "d2" }] "AI") ∧
    (∀ p, (filterByTag [{ slug := "p1", title := "t1", description := "d1", tags := some ["AI"] },
        { slug := "p2", title := "t2", description := "d2" }] "AI").count p
      = if specTagMatch "AI" p
        then ([{ slug := "p1", title := "t1", description := "d1", tags := some ["AI"] },
          { slug := "p2", title := "t2", description := "d2" }] : List Project).count p
        else 0) :=
  ⟨by decide,
    filter_specific_tag
      [{ slug := "p1", title := "t1", description := "d1", tags := some ["AI"] },
        { slug := "p2", title := "t2", description := "d2" }] "AI" (by decide)⟩

/-- C6 counterexample: after a submission has reached the terminal
success state, submitting again with NO intervening edit issues a second
request — editing a field first is not required, because the submit
control is re-enabled as soon as the status is no longer loading and the
unchanged fields still pass the guard. -/
theorem contact_resubmit_without_edit :
    (runContact "http://localhost:8000" initialContactState
      [ContactEvent.editName "Ann", ContactEvent.editEmail "ann@x.io",
        ContactEvent.editMessage "Hello there",
        ContactEvent.submitForm (ContactOutcome.response true)]).status = Status.success ∧
    (runContact "http://localhost:8000" initialContactState
      [ContactEvent.editName "Ann", ContactEvent.editEmail "ann@x.io",
        ContactEvent.editMessage "Hello there",
        ContactEvent.submitForm (ContactOutcome.response true)]).sent.length = 1 ∧
    (runContact "http://localhost:8000" initialContactState
      [ContactEvent.editName "Ann", ContactEvent.editEmail "ann@x.io",
        ContactEvent.editMessage "Hello there",
        ContactEvent.submitForm (ContactOutcome.response true),
        ContactEvent.submitForm (ContactOutcome.response true)]).sent.length = 2 ∧
    (runContact "http://localhost:8000" initialContactState
      [ContactEvent.editName "Ann", ContactEvent.editEmail "ann@x.io",
        ContactEvent.editMessage "Hello there",
        ContactEvent.submitForm (ContactOutcome.response true),
        ContactEvent.submitForm (ContactOutcome.response true)]).form
      = { name := "Ann", email := "ann@x.io", message := "Hello there" } := by
  refine ⟨?_, ?_, ?_, ?_⟩ <;> decide

/-- C6 amended: after a terminal success or error status, a new
submission can be triggered by resubmitting alone — the submit control is
enabled again since the status is not loading and the unchanged fields
still pass the guard, so editing first is possible but not required;
resubmission restarts the same state machine (it passes through loading
again) with the same form contents still populated, and no field is
cleared on success. -/
theorem contact_resubmit_restarts (base : String) (st : ContactState) (o : ContactOutcome)
    (hterm : st.status = Status.success ∨ st.status = Status.error)
    (hv : contactValid st.form = true) :
    submitDisabled st.form st.status = false ∧
    (contactStep base st (ContactEvent.submitForm o)).sent
      = st.sent ++ [mkContactRequest base st.form] ∧
    (contactStep base st (ContactEvent.submitForm o)).form = st.form ∧
    (contactSubmit base st.form o).trace.head? = some Status.loading ∧
    (o = ContactOutcome.response true →
      (contactStep base st (ContactEvent.submitForm o)).status = Status.success) ∧
    (o = ContactOutcome.response false →
      (contactStep base st (ContactEvent.submitForm o)).status = Status.error) ∧
    (o = ContactOutcome.thrown →
      (contactStep base st (ContactEvent.submitForm o)).status = Status.error) := by
  have hd : submitDisabled st.form st.status = false := by
    rcases hterm with h | h <;> simp [submitDisabled, hv, h]
  refine ⟨hd, ?_, ?_, ?_, ?_, ?_, ?_⟩
  · simp [contactStep, hd, contactSubmit, hv]
  · simp [contactStep, hd]
  · simp [contactSubmit, hv]
  · rintro rfl; simp [contactStep, hd, contactSubmit, hv]
  · rintro rfl; simp [contactStep, hd, contactSubmit, hv]
  · rintro rfl; simp [contactStep, hd, contactSubmit, hv]

/-- C6 amended witness: a component state that has just succeeded with
the spec's example form satisfies the theorem's hypotheses and
conclusion. -/
theorem contact_resubmit_restarts_witness :
    ((ContactState.mk Status.success
        { name := "Ann", email := "ann@x.io", message := "Hello there" } []).status
        = Status.success
      ∨ (ContactState.mk Status.success
          { name := "Ann", email := "ann@x.io", message := "Hello there" } []).status
        = Status.error) ∧
    contactValid (ContactState.mk Status.success
      { name := "Ann", email := "ann@x.io", message := "Hello there" } []).form = true ∧
    (submitDisabled (ContactState.mk Status.success
        { name := "Ann", email := "ann@x.io", message := "Hello there" } []).form
        (ContactState.mk Status.success
          { name := "Ann", email := "ann@x.io", message := "Hello there" } []).status = false ∧
    (contactStep "http://localhost:8000"
        (ContactState.mk Status.success
          { name := "Ann", email := "ann@x.io", message := "Hello there" } [])
        (ContactEvent.submitForm (ContactOutcome.response true))).sent
      = (ContactState.mk Status.success
          { name := "Ann", email := "ann@x.io", message := "Hello there" } []).sent
        ++ [mkContactRequest "http://localhost:8000"
            (ContactState.mk Status.success
              { name := "Ann", email := "ann@x.io", message := "Hello there" } []).form] ∧
    (contactStep "http://localhost:8000"
        (ContactState.mk Status.success
          { name := "Ann", email := "ann@x.io", message := "Hello there" } [])
        (ContactEvent.submitForm (ContactOutcome.response true))).form
      = (ContactState.mk Status.success
          { name := "Ann", email := "ann@x.io", message := "Hello there" } []).form ∧
    (contactSubmit "http://localhost:8000"
        (ContactState.mk Status.success
          { name := "Ann", email := "ann@x.io", message := "Hello there" } []).form
        (ContactOutcome.response true)).trace.head? = some Status.loading ∧
    (ContactOutcome.response true = ContactOutcome.response true →
      (contactStep "http://localhost:8000"
          (ContactState.mk Status.success
            { name := "Ann", email := "ann@x.io", message := "Hello there" } [])
          (ContactEvent.submitForm (ContactOutcome.response true))).status = Status.success) ∧
    (ContactOutcome.response true = ContactOutcome.response false →
      (contactStep "http://localhost:8000"
          (ContactState.mk Status.success
            { name := "Ann", email := "ann@x.io", message := "Hello there" } [])
          (ContactEvent.submitForm (ContactOutcome.response true))).status = Status.error) ∧
    (ContactOutcome.response true = ContactOutcome.thrown →
      (contactStep "http://localhost:8000"
          (ContactState.mk Status.success
            { name := "Ann", email := "ann@x.io", message := "Hello there" } [])
          (ContactEvent.submitForm (ContactOutcome.response true))).status = Status.error)) :=
  ⟨Or.inl rfl, by decide,
    contact_resubmit_restarts "http://localhost:8000"
      (ContactState.mk Status.success
        { name := "Ann", email := "ann@x.io", message := "Hello there" } [])
      (ContactOutcome.response true) (Or.inl rfl) (by decide)⟩

/-- C7: toggling the theme persists the new two-valued theme string;
initialization with a stored light/dark value present returns that value
regardless of the ambient color-scheme signal; with no stored value,
initialization falls back to the ambient signal. -/
theorem theme_roundtrip (w : ThemeWorld) (t : String) (ambientDark : Bool)
    (ht : t = "light" ∨ t = "dark") :
    (themeEffect (toggleTheme t) w).stored = some (toggleTheme t) ∧
    (toggleTheme t = "light" ∨ toggleTheme t = "dark") ∧
    (∀ ambient2 : Bool,
      getInitialTheme (themeEffect (toggleTheme t) w).stored ambient2 = toggleTheme t) ∧
    getInitialTheme (some t) ambientDark = t ∧
    getInitialTheme none ambientDark = ambientTheme ambientDark := by
  rcases ht with h | h <;> subst h
  · exact ⟨rfl, Or.inr rfl, fun _ => rfl, rfl, rfl⟩
  · exact ⟨rfl, Or.inl rfl, fun _ => rfl, rfl, rfl⟩

/-- C7 witness: starting from theme "dark" with an empty store and a
light ambient preference, the round trip holds. -/
theorem theme_roundtrip_witness :
    (("dark" : String) = "light" ∨ ("dark" : String) = "dark") ∧
    ((themeEffect (toggleTheme "dark") (ThemeWorld.mk false none)).stored
      = some (toggleTheme "dark") ∧
    (toggleTheme "dark" = "light" ∨ toggleTheme "dark" = "dark") ∧
    (∀ ambient2 : Bool,
      getInitialTheme (themeEffect (toggleTheme "dark") (ThemeWorld.mk false none)).stored
        ambient2 = toggleTheme "dark") ∧
    getInitialTheme (some "dark") false = "dark" ∧
    getInitialTheme none false = ambientTheme false) :=
  ⟨Or.inr rfl, theme_roundtrip (ThemeWorld.mk false none) "dark" false (Or.inr rfl)⟩

/-- C8: after the mount sequence — theme initialization, the theme
effect, then the unconditional add of the dark marker — the document root
carries the dark class for every initial stored/ambient configuration,
while the initialized theme value itself is still what was persisted. -/
theorem app_mount_forces_dark (ambientDark : Bool) (w : ThemeWorld) :
    (appMount ambientDark w).darkClass = true ∧
    (appMount ambientDark w).stored = some (getInitialTheme w.stored ambientDark) := by
  exact ⟨rfl, rfl⟩

/-- C9: the posts section emits no container when the fetch returns an
empty collection or fails; a failure is swallowed silently, leaving the
posts state unchanged, and the component has no error channel at all. -/
theorem blog_renders_nothing (ok : Bool) (posts : List Post) :
    loadPosts FetchOutcome.thrown posts = posts ∧
    loadPosts (FetchOutcome.response ok none) posts = posts ∧
    renderBlog (loadPosts FetchOutcome.thrown []) = BlogView.nothing ∧
    renderBlog (loadPosts (FetchOutcome.response ok none) []) = BlogView.nothing ∧
    renderBlog (loadPosts (FetchOutcome.response ok (some [])) posts) = BlogView.nothing ∧
    renderBlog [] = BlogView.nothing := by
  exact ⟨rfl, rfl, rfl, rfl, rfl, rfl⟩

end Portfolio
